import Mathlib

/-!
Verification development for the mongoagg repository: a shallow embedding of
the aggregation-pipeline builder (src/mongoagg/core.py) and its stage model
(src/mongoagg/models.py), followed by theorems settling the specification
claims about it.

Python structured values (the payloads that flow through the builder) are
embedded as the inductive type `Value`.  Python dictionaries are embedded as
association lists that preserve insertion order, exactly as CPython
dictionaries do; every dictionary the source constructs has pairwise distinct
keys.  Exceptions are embedded with `Except`: each `raise` site of the source
corresponds to one `.error` constructor application, carrying the same error
class and message (interpolated fragments that would require Python repr of
an arbitrary value are elided from messages; no claim depends on them).
-/

namespace Mongoagg

/-- Embedding of the Python structured values handled by the builder:
None, bool, int, str, list and dict (as an insertion-ordered association
list). -/
inductive Value where
  | null : Value
  | bool (b : Bool) : Value
  | int (n : Int) : Value
  | str (s : String) : Value
  | arr (elems : List Value) : Value
  | dict (entries : List (String × Value)) : Value


/-- Python `k in d` for a dictionary: key membership. -/
def hasKey (entries : List (String × Value)) (k : String) : Bool :=
  entries.any (fun e => e.1 == k)

/-- Python `d[k]` for a dictionary (first entry with the key; the source only
indexes keys it has just tested for membership). -/
def getKey (entries : List (String × Value)) (k : String) : Option Value :=
  (entries.find? (fun e => e.1 == k)).map (fun e => e.2)

/-- Python equality `v == n` between a structured value and an int literal.
CPython compares booleans numerically (`True == 1` and `False == 0` hold);
values of any other class never equal an int. -/
def Value.pyEqInt : Value → Int → Bool
  | .int m, n => m == n
  | .bool b, n => (if b then (1 : Int) else 0) == n
  | _, _ => false

/-- Python `isinstance(v, int)`: true for ints and also for booleans, since
`bool` is a subclass of `int` in Python. -/
def Value.isInstInt : Value → Bool
  | .int _ => true
  | .bool _ => true
  | _ => false

/-- The integer a Python int-or-bool value stands for in comparisons
(booleans count as 0 or 1).  Only applied under an `isInstInt` guard. -/
def Value.asInt : Value → Int
  | .int n => n
  | .bool b => if b then 1 else 0
  | _ => 0

/-- Python `s.startswith('$')`: the first character of the string is the
reserved sigil.  (For a one-character prefix this first-character test is
the same predicate as the library prefix test.) -/
def startsWithDollar (s : String) : Bool :=
  match s.data with
  | [] => false
  | c :: _ => c == '$'

/-- The WireStage invariant of the spec: a mapping with exactly one key whose
key begins with the reserved sigil. -/
def isWireStage : Value → Bool
  | .dict [(k, _)] => startsWithDollar k
  | _ => false

/-- Embedding of the exception classes of src/mongoagg/exceptions.py, plus
pydantic's ValidationError (raised by stage-model construction), each with
its message. -/
inductive AggError where
  | invalidLookup (msg : String) : AggError
  | invalidStage (msg : String) : AggError
  | serializationFailure (msg : String) : AggError
  | constructionFailure (msg : String) : AggError


/-- Whether an error is the join-configuration category (InvalidLookupError). -/
def AggError.isInvalidLookup : AggError → Bool
  | .invalidLookup _ => true
  | _ => false

/-! ### Stage model (src/mongoagg/models.py)

One structure per pydantic stage model, with the source's field names where
Lean allows them (`match` is a Lean keyword, so `MatchStage.match` becomes
`match_`).  Field types record what pydantic guarantees after construction;
the only construction-time constraint that can fail on a well-typed call is
the `ge=0` bound on `LimitStage.limit` and `SkipStage.skip`, embedded as the
fallible constructors `LimitStage.make` and `SkipStage.make`. -/

/-- Model for the $match stage (source field name: `match`). -/
structure MatchStage where
  match_ : List (String × Value)


/-- Model for the $project stage. -/
structure ProjectStage where
  project : List (String × Value)


/-- Model for the $sort stage; pydantic's `Dict[str, int]` guarantees the
directions are ints once the object exists. -/
structure SortStage where
  sort : List (String × Int)


/-- Model for the $limit stage. -/
structure LimitStage where
  limit : Int


/-- Model for the $skip stage. -/
structure SkipStage where
  skip : Int


/-- Construction of LimitStage: pydantic enforces `Field(..., ge=0)` when the
object is created, before any builder append. -/
def LimitStage.make (limit : Int) : Except AggError LimitStage :=
  if limit < 0 then
    .error (.constructionFailure "ensure this value is greater than or equal to 0")
  else
    .ok ⟨limit⟩

/-- Construction of SkipStage: pydantic enforces `Field(..., ge=0)` when the
object is created, before any builder append. -/
def SkipStage.make (skip : Int) : Except AggError SkipStage :=
  if skip < 0 then
    .error (.constructionFailure "ensure this value is greater than or equal to 0")
  else
    .ok ⟨skip⟩

/-- Model for the $unwind stage; `preserve_null_and_empty` defaults to true
at every call site that omits it. -/
structure UnwindStage where
  path : String
  preserve_null_and_empty : Bool


/-- Model for the $group stage. -/
structure GroupStage where
  id_field : Value
  accumulators : List (String × Value)


/-- Model for the $addFields stage. -/
structure AddFieldsStage where
  fields : List (String × Value)


/-- Model for the $replaceRoot stage. -/
structure ReplaceRootStage where
  new_root : List (String × Value)


/-- Model for the $lookup stage (source field names: `from_`, `as_`,
`local_field`, `foreign_field`, `let_`, `pipeline`). -/
structure LookupStage where
  from_ : String
  as_ : String
  local_field : Option String
  foreign_field : Option String
  let_ : Option (List (String × Value))
  pipeline : Option (List Value)


/-- Model for the $facet stage. -/
structure FacetStage where
  pipelines : List (String × List Value)


/-- Model for the $redact stage. -/
structure RedactStage where
  condition : List (String × Value)


/-- Model for the $comment stage. -/
structure CommentStage where
  text : String


/-- A Python `Optional[str]` serialized into a stage payload: None becomes
JSON null. -/
def optStr : Option String → Value
  | none => .null
  | some s => .str s

/-- A Python `Optional[Dict[str, Any]]` serialized into a stage payload:
None becomes JSON null. -/
def optDict : Option (List (String × Value)) → Value
  | none => .null
  | some entries => .dict entries

/-- `MatchStage.to_mongo`. -/
def MatchStage.to_mongo (s : MatchStage) : Value :=
  .dict [("$match", .dict s.match_)]

/-- `ProjectStage.to_mongo`. -/
def ProjectStage.to_mongo (s : ProjectStage) : Value :=
  .dict [("$project", .dict s.project)]

/-- `SortStage.to_mongo`. -/
def SortStage.to_mongo (s : SortStage) : Value :=
  .dict [("$sort", .dict (s.sort.map (fun e => (e.1, Value.int e.2))))]

/-- `LimitStage.to_mongo`. -/
def LimitStage.to_mongo (s : LimitStage) : Value :=
  .dict [("$limit", .int s.limit)]

/-- `SkipStage.to_mongo`. -/
def SkipStage.to_mongo (s : SkipStage) : Value :=
  .dict [("$skip", .int s.skip)]

/-- `UnwindStage.to_mongo`: always the expanded object form. -/
def UnwindStage.to_mongo (s : UnwindStage) : Value :=
  .dict [("$unwind", .dict
    [("path", .str s.path),
     ("preserveNullAndEmptyArrays", .bool s.preserve_null_and_empty)])]

/-- `GroupStage.to_mongo`: the `_id` key followed by the accumulator entries
(`{"_id": self.id_field, **self.accumulators}`). -/
def GroupStage.to_mongo (s : GroupStage) : Value :=
  .dict [("$group", .dict (("_id", s.id_field) :: s.accumulators))]

/-- `AddFieldsStage.to_mongo`. -/
def AddFieldsStage.to_mongo (s : AddFieldsStage) : Value :=
  .dict [("$addFields", .dict s.fields)]

/-- `ReplaceRootStage.to_mongo`. -/
def ReplaceRootStage.to_mongo (s : ReplaceRootStage) : Value :=
  .dict [("$replaceRoot", .dict [("newRoot", .dict s.new_root)])]

/-- `LookupStage.to_mongo`: starts from `{from, as}`; when `pipeline` is not
None it adds the `let` key (with the raw `let_` value, null when absent) and
the `pipeline` key, otherwise it adds `localField` and `foreignField`. -/
def LookupStage.to_mongo (s : LookupStage) : Value :=
  match s.pipeline with
  | some p =>
      .dict [("$lookup", .dict
        [("from", .str s.from_), ("as", .str s.as_),
         ("let", optDict s.let_), ("pipeline", .arr p)])]
  | none =>
      .dict [("$lookup", .dict
        [("from", .str s.from_), ("as", .str s.as_),
         ("localField", optStr s.local_field),
         ("foreignField", optStr s.foreign_field)])]

/-- `FacetStage.to_mongo`. -/
def FacetStage.to_mongo (s : FacetStage) : Value :=
  .dict [("$facet", .dict (s.pipelines.map (fun e => (e.1, Value.arr e.2))))]

/-- `RedactStage.to_mongo`. -/
def RedactStage.to_mongo (s : RedactStage) : Value :=
  .dict [("$redact", .dict s.condition)]

/-- `CommentStage.to_mongo`. -/
def CommentStage.to_mongo (s : CommentStage) : Value :=
  .dict [("$comment", .str s.text)]

/-- The closed union of `Stage` subclasses (models.py `AggregationStage`). -/
inductive Stage where
  | matchS (s : MatchStage) : Stage
  | projectS (s : ProjectStage) : Stage
  | sortS (s : SortStage) : Stage
  | limitS (s : LimitStage) : Stage
  | skipS (s : SkipStage) : Stage
  | unwindS (s : UnwindStage) : Stage
  | groupS (s : GroupStage) : Stage
  | addFieldsS (s : AddFieldsStage) : Stage
  | replaceRootS (s : ReplaceRootStage) : Stage
  | lookupS (s : LookupStage) : Stage
  | facetS (s : FacetStage) : Stage
  | redactS (s : RedactStage) : Stage
  | commentS (s : CommentStage) : Stage


/-- Virtual-dispatch of `to_mongo` over the stage union. -/
def Stage.to_mongo : Stage → Value
  | .matchS s => s.to_mongo
  | .projectS s => s.to_mongo
  | .sortS s => s.to_mongo
  | .limitS s => s.to_mongo
  | .skipS s => s.to_mongo
  | .unwindS s => s.to_mongo
  | .groupS s => s.to_mongo
  | .addFieldsS s => s.to_mongo
  | .replaceRootS s => s.to_mongo
  | .lookupS s => s.to_mongo
  | .facetS s => s.to_mongo
  | .redactS s => s.to_mongo
  | .commentS s => s.to_mongo

/-! ### Pipeline container and builder (src/mongoagg/core.py)

The builder is mutable in the source; here every method is a function from
the receiver to its result, and methods that mutate return the new builder.
A method whose Python body performs no assignment to `self._pipeline`
translates to a function that returns (or threads through) the receiver
unchanged. -/

/-- The pipeline container: an insertion-ordered list of wire-level stage
values. -/
structure Pipeline where
  stages : List Value

/-- The fluent builder; owns exactly one pipeline container. -/
structure AggBuilder where
  pipeline : Pipeline

/-- `AggBuilder()` with no seeded container: an empty pipeline. -/
def AggBuilder.empty : AggBuilder := ⟨⟨[]⟩⟩

/-- The argument of `add`: a typed Stage object or a raw value
(`Union[Stage, Dict[str, Any]]`; a non-dict raw value is also expressible
and is rejected at run time exactly as in the source). -/
inductive StageOrRaw where
  | typed (s : Stage) : StageOrRaw
  | raw (v : Value) : StageOrRaw

/-- `AggBuilder.add`: a typed stage is converted with `to_mongo` and
appended; a raw value must be a dict with exactly one key starting with the
sigil, else InvalidStageError is raised before anything is appended. -/
def AggBuilder.add (b : AggBuilder) (stage : StageOrRaw) : Except AggError AggBuilder :=
  match stage with
  | .typed s => .ok ⟨⟨b.pipeline.stages ++ [s.to_mongo]⟩⟩
  | .raw v =>
      match v with
      | .dict [(stageName, _)] =>
          if startsWithDollar stageName then
            .ok ⟨⟨b.pipeline.stages ++ [v]⟩⟩
          else
            .error (.invalidStage ("Stage operator must start with $, got " ++ stageName))
      | .dict entries =>
          .error (.invalidStage ("Stage must have exactly one key, got " ++
            toString entries.length))
      | _ => .error (.invalidStage "Stage must be a dictionary")

/-! ### Validator (core.py `validate_pipeline`)

The stage-by-stage loop with fail-fast raising; `validateStage i stage` is
one iteration of the loop body at index `i`. -/

/-- The per-kind checks for a `$lookup` payload that is a dict (the body of
the `$lookup` branch of the loop, after the dict test).  In the source the
non-pipeline checks and the pipeline checks sit in two consecutive `if`
statements with mutually exclusive guards; that is an if/else on
membership of the `pipeline` key. -/
def validateLookupEntries (i : Nat) (entries : List (String × Value)) : Except AggError Unit :=
  if hasKey entries "from" then
    if hasKey entries "as" then
      if hasKey entries "pipeline" then
        match getKey entries "pipeline" with
        | some (Value.arr _) =>
            if hasKey entries "let" then .ok ()
            else .error (.invalidStage ("$lookup stage " ++ toString i ++
              " with pipeline requires let field"))
        | _ => .error (.invalidStage ("$lookup stage " ++ toString i ++
            " pipeline must be a list"))
      else
        if hasKey entries "localField" then
          if hasKey entries "foreignField" then .ok ()
          else .error (.invalidStage ("$lookup stage " ++ toString i ++
            " missing required foreignField for non-pipeline lookup"))
        else .error (.invalidStage ("$lookup stage " ++ toString i ++
          " missing required localField for non-pipeline lookup"))
    else .error (.invalidStage ("$lookup stage " ++ toString i ++
      " missing required as field"))
  else .error (.invalidStage ("$lookup stage " ++ toString i ++
    " missing required from field"))

/-- The `$sort` direction loop: `direction not in (1, -1)` raises; Python
tuple membership compares with `==`, embedded as `Value.pyEqInt`. -/
def checkSortDirections (i : Nat) : List (String × Value) → Except AggError Unit
  | [] => .ok ()
  | (_, direction) :: rest =>
      if direction.pyEqInt 1 || direction.pyEqInt (-1) then
        checkSortDirections i rest
      else
        .error (.invalidStage ("$sort stage " ++ toString i ++
          " direction must be 1 or -1"))

/-- The kind-specific branch dispatch of the validator loop body, given the
single stage key and its payload. -/
def validateStageValue (i : Nat) (stageName : String) (stageValue : Value) : Except AggError Unit :=
  if stageName == "$lookup" then
    match stageValue with
    | .dict entries => validateLookupEntries i entries
    | _ => .error (.invalidStage ("$lookup stage " ++ toString i ++
        " value must be a dictionary"))
  else if stageName == "$match" then
    match stageValue with
    | .dict _ => .ok ()
    | _ => .error (.invalidStage ("$match stage " ++ toString i ++
        " value must be a dictionary"))
  else if stageName == "$project" then
    match stageValue with
    | .dict _ => .ok ()
    | _ => .error (.invalidStage ("$project stage " ++ toString i ++
        " value must be a dictionary"))
  else if stageName == "$sort" then
    match stageValue with
    | .dict entries => checkSortDirections i entries
    | _ => .error (.invalidStage ("$sort stage " ++ toString i ++
        " value must be a dictionary"))
  else if stageName == "$limit" || stageName == "$skip" then
    if stageValue.isInstInt && 0 ≤ stageValue.asInt then .ok ()
    else .error (.invalidStage (stageName ++ " stage " ++ toString i ++
      " value must be a non-negative integer"))
  else if stageName == "$unwind" then
    match stageValue with
    | .str _ => .ok ()
    | .dict entries =>
        if hasKey entries "path" then .ok ()
        else .error (.invalidStage ("$unwind stage " ++ toString i ++
          " missing required path field"))
    | _ => .error (.invalidStage ("$unwind stage " ++ toString i ++
        " value must be a string or dictionary"))
  else .ok ()

/-- One iteration of the validator loop at index `i`: the stage must be a
dict with exactly one key, the key must start with the sigil, then the
kind-specific rules run on the payload. -/
def validateStage (i : Nat) (stage : Value) : Except AggError Unit :=
  match stage with
  | .dict [(stageName, stageValue)] =>
      if startsWithDollar stageName then
        validateStageValue i stageName stageValue
      else
        .error (.invalidStage ("Stage " ++ toString i ++
          " operator must start with $, got " ++ stageName))
  | .dict entries =>
      .error (.invalidStage ("Stage " ++ toString i ++
        " must have exactly one key, got " ++ toString entries.length))
  | _ =>
      .error (.invalidStage ("Stage " ++ toString i ++ " must be a dictionary"))

/-- The validator loop over the stages starting at index `i`; the first
raised error propagates (fail-fast). -/
def validateStagesFrom (i : Nat) : List Value → Except AggError Unit
  | [] => .ok ()
  | s :: rest =>
      match validateStage i s with
      | .error e => .error e
      | .ok _ => validateStagesFrom (i + 1) rest

/-- `AggBuilder.validate_pipeline`: runs the loop over the accumulated
stages; performs no assignment to the builder. -/
def AggBuilder.validate_pipeline (b : AggBuilder) : Except AggError Unit :=
  validateStagesFrom 0 b.pipeline.stages

/-- `AggBuilder.build` (finalize): validate, then return a copy of the
stage list. -/
def AggBuilder.build (b : AggBuilder) : Except AggError (List Value) :=
  match b.validate_pipeline with
  | .error e => .error e
  | .ok _ => .ok b.pipeline.stages

/-- `validate_pipeline` as a state transformer: its result together with the
builder afterwards.  The method body contains no assignment to
`self._pipeline`, so the builder after the call is the receiver. -/
def AggBuilder.validate_pipelineS (b : AggBuilder) : Except AggError Unit × AggBuilder :=
  (b.validate_pipeline, b)

/-- `build` as a state transformer: it calls `validate_pipeline` (whose
raised error propagates, leaving the builder as the inner call left it) and
on success reads `self._pipeline.stages.copy()`; it performs no assignment
itself. -/
def AggBuilder.buildS (b : AggBuilder) : Except AggError (List Value) × AggBuilder :=
  match b.validate_pipelineS with
  | (.error e, b2) => (.error e, b2)
  | (.ok _, b2) => (.ok b2.pipeline.stages, b2)

/-! ### Convenience builder methods (core.py) -/

/-- `AggBuilder.match` (the name is a Lean keyword): append a MatchStage. -/
def AggBuilder.match_ (b : AggBuilder) (query : List (String × Value)) : Except AggError AggBuilder :=
  b.add (.typed (.matchS ⟨query⟩))

/-- `AggBuilder.project`: append a ProjectStage. -/
def AggBuilder.project (b : AggBuilder) (fields : List (String × Value)) : Except AggError AggBuilder :=
  b.add (.typed (.projectS ⟨fields⟩))

/-- `AggBuilder.sort`: append a SortStage (pydantic has already coerced the
direction values to ints when the SortStage object exists). -/
def AggBuilder.sort (b : AggBuilder) (fields : List (String × Int)) : Except AggError AggBuilder :=
  b.add (.typed (.sortS ⟨fields⟩))

/-- `AggBuilder.limit`: construct a LimitStage (which can raise pydantic's
construction error before anything is appended) and append it. -/
def AggBuilder.limit (b : AggBuilder) (n : Int) : Except AggError AggBuilder :=
  match LimitStage.make n with
  | .error e => .error e
  | .ok s => b.add (.typed (.limitS s))

/-- `AggBuilder.skip`: construct a SkipStage (which can raise pydantic's
construction error before anything is appended) and append it. -/
def AggBuilder.skip (b : AggBuilder) (n : Int) : Except AggError AggBuilder :=
  match SkipStage.make n with
  | .error e => .error e
  | .ok s => b.add (.typed (.skipS s))

/-- `AggBuilder.unwind`: append an UnwindStage.  The source defaults
`preserve_null_and_empty` to True; callers of the embedding pass it
explicitly. -/
def AggBuilder.unwind (b : AggBuilder) (path : String) (preserve_null_and_empty : Bool) : Except AggError AggBuilder :=
  b.add (.typed (.unwindS ⟨path, preserve_null_and_empty⟩))

/-- One item of the list form of `lookup`'s `pipeline` argument: a raw
mapping or a nested builder. -/
inductive SubPipelineItem where
  | raw (v : Value) : SubPipelineItem
  | builder (b : AggBuilder) : SubPipelineItem

/-- `lookup`'s `pipeline` argument when present: a nested builder or a list
of raw mappings and nested builders. -/
inductive LookupPipelineArg where
  | builder (b : AggBuilder) : LookupPipelineArg
  | list (items : List SubPipelineItem) : LookupPipelineArg

/-- The item loop of `lookup`'s pipeline mode: each nested builder
contributes its `build()` output (whose validation error propagates), each
raw mapping passes through unchecked. -/
def collectSubStages : List SubPipelineItem → Except AggError (List Value)
  | [] => .ok []
  | .builder nb :: rest =>
      match nb.build with
      | .error e => .error e
      | .ok s =>
          match collectSubStages rest with
          | .error e => .error e
          | .ok r => .ok (s ++ r)
  | .raw v :: rest =>
      match collectSubStages rest with
      | .error e => .error e
      | .ok r => .ok (v :: r)

/-- Normalization of `lookup`'s non-None pipeline argument into one stage
list (`stages` in the source). -/
def collectStages : LookupPipelineArg → Except AggError (List Value)
  | .builder nb => nb.build
  | .list items => collectSubStages items

/-- The InvalidLookupError message of `lookup` (apostrophes of the source
message elided). -/
def lookupRequiredMsg : String :=
  "Both local_field and foreign_field are required for non-pipeline lookups."

/-- `AggBuilder.lookup`: with a non-None `pipeline` argument the nested
stages are collected and a pipeline-mode LookupStage is appended; otherwise
`if not local_field or not foreign_field` raises InvalidLookupError before
any append (Python falsiness: None and the empty string both fail the
test), else a foreign-key LookupStage is appended. -/
def AggBuilder.lookup (b : AggBuilder) (from_ as_ : String)
    (local_field foreign_field : Option String)
    (let_ : Option (List (String × Value)))
    (pipeline : Option LookupPipelineArg) : Except AggError AggBuilder :=
  match pipeline with
  | some parg =>
      match collectStages parg with
      | .error e => .error e
      | .ok stages =>
          b.add (.typed (.lookupS ⟨from_, as_, local_field, foreign_field, let_, some stages⟩))
  | none =>
      match local_field, foreign_field with
      | some lf, some ff =>
          if lf == "" || ff == "" then .error (.invalidLookup lookupRequiredMsg)
          else b.add (.typed (.lookupS ⟨from_, as_, local_field, foreign_field, let_, none⟩))
      | _, _ => .error (.invalidLookup lookupRequiredMsg)

/-! ### Serialization (core.py `to_json`)

`to_json` serializes `self._pipeline.stages` directly with `json.dumps`; it
does NOT call `build()` or `validate_pipeline()`.  The rendering itself is a
standard JSON dump; with `default=str` and the acyclic values of the
embedding it cannot raise, so the `except` branch that would produce
PipelineSerializationError is unreachable here.  The concrete text layout
(indent=2 pretty-printing, string escaping) is external-library behavior the
spec places out of scope; the embedding renders compactly, which no claim
depends on. -/

mutual

/-- JSON rendering of one value. -/
def renderValue : Value → String
  | .null => "null"
  | .bool b => if b then "true" else "false"
  | .int n => toString n
  | .str s => "\"" ++ s ++ "\""
  | .arr elems => "[" ++ renderList elems ++ "]"
  | .dict entries => "\x7b" ++ renderEntries entries ++ "\x7d"

/-- JSON rendering of the elements of a list. -/
def renderList : List Value → String
  | [] => ""
  | [v] => renderValue v
  | v :: rest => renderValue v ++ ", " ++ renderList rest

/-- JSON rendering of the entries of a dict. -/
def renderEntries : List (String × Value) → String
  | [] => ""
  | [(k, v)] => "\"" ++ k ++ "\": " ++ renderValue v
  | (k, v) :: rest => "\"" ++ k ++ "\": " ++ renderValue v ++ ", " ++ renderEntries rest

end

/-- `AggBuilder.to_json`: renders the accumulated stages as text.  It does
not call `build` or `validate_pipeline` first. -/
def AggBuilder.to_json (b : AggBuilder) : Except AggError String :=
  .ok (renderValue (.arr b.pipeline.stages))

/-! ### Helper lemmas about the validator and the builder -/

/-- Every error the sort-direction loop raises is an InvalidStageError. -/
theorem checkSortDirections_err_class (i : Nat) (l : List (String × Value)) (e : AggError)
    (h : checkSortDirections i l = .error e) : e.isInvalidLookup = false := by
  induction l with
  | nil => exact Except.noConfusion h
  | cons hd tl ih =>
      obtain ⟨f, d⟩ := hd
      rw [checkSortDirections] at h
      split at h
      · exact ih h
      · cases h; rfl

/-- Every error the $lookup payload checks raise is an InvalidStageError. -/
theorem validateLookupEntries_err_class (i : Nat) (entries : List (String × Value)) (e : AggError)
    (h : validateLookupEntries i entries = .error e) : e.isInvalidLookup = false := by
  unfold validateLookupEntries at h
  repeat' split at h
  all_goals first
    | exact Except.noConfusion h
    | (cases h; rfl)

/-- Every error the kind-specific validator branches raise is an
InvalidStageError. -/
theorem validateStageValue_err_class (i : Nat) (n : String) (v : Value) (e : AggError)
    (h : validateStageValue i n v = .error e) : e.isInvalidLookup = false := by
  unfold validateStageValue at h
  repeat' split at h
  all_goals first
    | exact Except.noConfusion h
    | (cases h; rfl)
    | exact validateLookupEntries_err_class _ _ _ h
    | exact checkSortDirections_err_class _ _ _ h

/-- Every error one validator-loop iteration raises is an InvalidStageError. -/
theorem validateStage_err_class (i : Nat) (v : Value) (e : AggError)
    (h : validateStage i v = .error e) : e.isInvalidLookup = false := by
  unfold validateStage at h
  repeat' split at h
  all_goals first
    | exact Except.noConfusion h
    | (cases h; rfl)
    | exact validateStageValue_err_class _ _ _ _ h

/-- Every error the validator loop raises is an InvalidStageError. -/
theorem validateStagesFrom_err_class (stages : List Value) (i : Nat) (e : AggError)
    (h : validateStagesFrom i stages = .error e) : e.isInvalidLookup = false := by
  induction stages generalizing i with
  | nil => exact Except.noConfusion h
  | cons s rest ih =>
      rw [validateStagesFrom] at h
      split at h
      · next heq => cases h; exact validateStage_err_class _ _ _ heq
      · exact ih _ h

/-- Every error `add` raises is an InvalidStageError. -/
theorem add_err_class (b : AggBuilder) (s : StageOrRaw) (e : AggError)
    (h : b.add s = .error e) : e.isInvalidLookup = false := by
  unfold AggBuilder.add at h
  repeat' split at h
  all_goals first
    | exact Except.noConfusion h
    | (cases h; rfl)

/-- A stage a validator-loop iteration accepts satisfies the WireStage
invariant. -/
theorem validateStage_ok_isWireStage (i : Nat) (v : Value) (h : validateStage i v = .ok ()) :
    isWireStage v = true := by
  match v with
  | .null | .bool _ | .int _ | .str _ | .arr _ => exact Except.noConfusion h
  | .dict [] => exact Except.noConfusion h
  | .dict (a :: b :: rest) => exact Except.noConfusion h
  | .dict [(k, val)] =>
      simp only [isWireStage]
      by_cases hs : startsWithDollar k = true
      · exact hs
      · exfalso
        rw [validateStage, if_neg hs] at h
        exact Except.noConfusion h

/-- Every stage of a list the validator loop accepts satisfies the WireStage
invariant. -/
theorem validateStagesFrom_ok_all (i : Nat) (stages : List Value)
    (h : validateStagesFrom i stages = .ok ()) :
    ∀ v ∈ stages, isWireStage v = true := by
  induction stages generalizing i with
  | nil => intro v hv; cases hv
  | cons s rest ih =>
      intro v hv
      rw [validateStagesFrom] at h
      split at h
      · exact Except.noConfusion h
      · next u heq =>
          rcases List.mem_cons.mp hv with rfl | hv2
          · cases u; exact validateStage_ok_isWireStage i v heq
          · exact ih _ h v hv2

/-- If some entry of a sort payload fails the Python-equality direction
test, the direction loop raises an InvalidStageError. -/
theorem checkSortDirections_mem_error (i : Nat) (l : List (String × Value))
    (hbad : ∃ p ∈ l, (p.2.pyEqInt 1 || p.2.pyEqInt (-1)) = false) :
    ∃ m, checkSortDirections i l = .error (.invalidStage m) := by
  induction l with
  | nil => simp at hbad
  | cons hd tl ih =>
      obtain ⟨f, d⟩ := hd
      rw [checkSortDirections]
      by_cases hc : (d.pyEqInt 1 || d.pyEqInt (-1)) = true
      · rw [if_pos hc]
        apply ih
        obtain ⟨p, hp, hbadp⟩ := hbad
        rcases List.mem_cons.mp hp with rfl | hp2
        · rw [hbadp] at hc; exact absurd hc (by simp)
        · exact ⟨p, hp2, hbadp⟩
      · rw [if_neg hc]
        exact ⟨_, rfl⟩

/-! ### Claim theorems -/

/-- The wire stage the typed constructor path produces for a pipeline-mode
join with no bound variables: the `let` key is present with value null. -/
def c1Stage : Value :=
  Value.dict [("$lookup", Value.dict
    [("from", Value.str "items"), ("as", Value.str "out"),
     ("let", Value.null), ("pipeline", Value.arr [])])]

/-- C1 counterexample: a pipeline-mode join built through the typed
constructor path with bound variables absent (None) does NOT make
finalize() raise — `lookup` succeeds and `build` returns the stage, because
`to_mongo` emits a `let` key (with value null), which satisfies the
Validator's presence check. -/
theorem c1_counterexample :
    (AggBuilder.empty).lookup "items" "out" none none none (some (.list [])) =
      .ok ⟨⟨[c1Stage]⟩⟩ ∧
    AggBuilder.build ⟨⟨[c1Stage]⟩⟩ = .ok [c1Stage] :=
  ⟨rfl, rfl⟩

/-- C1 (amended): for every join stage constructed through the typed
constructor path in pipeline mode with bound variables absent (None), the
wire stage contains a `let` key with a null value, so it passes the
Validator's bound-variable presence check and a validator iteration accepts
it; finalize() does not raise on such a stage. -/
theorem c1_pipeline_join_emits_null_let_key (from_ as_ : String) (p : List Value) (i : Nat) :
    (LookupStage.mk from_ as_ none none none (some p)).to_mongo =
      Value.dict [("$lookup", Value.dict
        [("from", Value.str from_), ("as", Value.str as_),
         ("let", Value.null), ("pipeline", Value.arr p)])] ∧
    validateStage i ((LookupStage.mk from_ as_ none none none (some p)).to_mongo) = .ok () :=
  ⟨rfl, rfl⟩

/-- The raw sort stage whose direction is the boolean True. -/
def c2SortTrueStage : Value :=
  Value.dict [("$sort", Value.dict [("a", Value.bool true)])]

/-- C2 counterexample: a sort stage whose direction is the boolean True is
accepted by append and by finalize(), because Python tuple membership
`direction not in (1, -1)` compares with `==` and `True == 1`; so it is not
the case that every direction value outside the literal markers is
rejected. -/
theorem c2_counterexample :
    (AggBuilder.empty).add (.raw c2SortTrueStage) = .ok ⟨⟨[c2SortTrueStage]⟩⟩ ∧
    AggBuilder.build ⟨⟨[c2SortTrueStage]⟩⟩ = .ok [c2SortTrueStage] :=
  ⟨rfl, rfl⟩

/-- C2 (amended): for every Order (sort) stage, a validator iteration fails
with a malformed-stage error whenever some direction value is not equal to
1 or -1 under Python equality (under which the boolean False, equal to 0,
is rejected — but the boolean True is accepted, since `True == 1`). -/
theorem c2_sort_direction_python_equality (i : Nat) (fields : List (String × Value))
    (f : String) (d : Value) (hmem : (f, d) ∈ fields)
    (h1 : d.pyEqInt 1 = false) (h2 : d.pyEqInt (-1) = false) :
    ∃ m, validateStage i (Value.dict [("$sort", Value.dict fields)]) =
      .error (.invalidStage m) := by
  have hred : validateStage i (Value.dict [("$sort", Value.dict fields)]) =
      checkSortDirections i fields := rfl
  rw [hred]
  exact checkSortDirections_mem_error i fields ⟨(f, d), hmem, by simp [h1, h2]⟩

/-- C2 witness: the amended theorem applied at a concrete sort payload whose
direction is a string. -/
theorem c2_sort_direction_python_equality_witness :
    ∃ m, validateStage 0 (Value.dict [("$sort", Value.dict [("a", Value.str "up")])]) =
      .error (.invalidStage m) :=
  c2_sort_direction_python_equality 0 [("a", Value.str "up")] "a" (Value.str "up")
    (List.mem_singleton.mpr rfl) rfl rfl

/-- A sort stage with direction 2: appendable raw (single sigil key), but
rejected by the validator. -/
def c3SortBadStage : Value :=
  Value.dict [("$sort", Value.dict [("a", Value.int 2)])]

/-- A builder whose container holds a stage that finalize() rejects. -/
def c3Builder : AggBuilder := ⟨⟨[c3SortBadStage]⟩⟩

/-- C3 counterexample: on a pipeline state where finalize() raises a
malformed-stage error, serialize() does not raise that error — it returns
the rendered text, because `to_json` never calls `build`/`validate_pipeline`. -/
theorem c3_counterexample :
    c3Builder.build = .error (.invalidStage "$sort stage 0 direction must be 1 or -1") ∧
    c3Builder.to_json = .ok "[\x7b\"$sort\": \x7b\"a\": 2\x7d\x7d]" :=
  ⟨rfl, rfl⟩

/-- C3 (amended): serialize() renders the accumulated stage sequence
directly, without running finalize()'s validation first; in particular, on
every pipeline state on which finalize() raises, serialize() still returns
the rendered text of the current container. -/
theorem c3_to_json_skips_validation (b : AggBuilder) (e : AggError)
    (_h : b.build = .error e) :
    b.to_json = .ok (renderValue (Value.arr b.pipeline.stages)) :=
  rfl

/-- C3 witness: the amended theorem applied at the concrete invalid
builder. -/
theorem c3_to_json_skips_validation_witness :
    c3Builder.to_json = .ok (renderValue (Value.arr c3Builder.pipeline.stages)) :=
  c3_to_json_skips_validation c3Builder
    (.invalidStage "$sort stage 0 direction must be 1 or -1") rfl

/-- C4: every sequence a successful finalize() returns consists solely of
single-key mappings whose key begins with the reserved sigil, for every
pipeline state on which build returns (however its stages were added:
typed, raw, or caller-seeded). -/
theorem c4_build_ok_wire_invariant (b : AggBuilder) (out : List Value)
    (h : b.build = .ok out) : ∀ v ∈ out, isWireStage v = true := by
  unfold AggBuilder.build at h
  split at h
  · exact Except.noConfusion h
  · next u heq =>
      cases h
      cases u
      exact validateStagesFrom_ok_all 0 b.pipeline.stages heq

/-- A concrete wire stage used to instantiate C4. -/
def c4Stage : Value :=
  Value.dict [("$match", Value.dict [("status", Value.str "active")])]

/-- C4 witness: the invariant theorem applied to a concrete successful
finalize(). -/
theorem c4_build_ok_wire_invariant_witness : isWireStage c4Stage = true :=
  c4_build_ok_wire_invariant ⟨⟨[c4Stage]⟩⟩ [c4Stage] rfl c4Stage
    (List.mem_singleton.mpr rfl)

/-- C5: finalize() never mutates the pipeline container — the builder after
`build` (and after `validate_pipeline`) equals the builder before, on
success and on failure alike, so the caller may append further stages and
retry on the same builder. -/
theorem c5_finalize_never_mutates (b : AggBuilder) :
    (b.buildS).2 = b ∧ (b.validate_pipelineS).2 = b := by
  constructor
  · unfold AggBuilder.buildS AggBuilder.validate_pipelineS
    cases hv : b.validate_pipeline <;> simp
  · rfl

/-- C6: with subPipeline absent, a join() call missing local-field or
foreign-field raises a join-configuration error at call time (the call
returns the error and appends nothing), and that error category is raised
nowhere else: append, the validator loop, stage construction, and
serialize never produce an InvalidLookupError. -/
theorem c6_invalid_lookup_only_at_call_time :
    (∀ (b : AggBuilder) (from_ as_ : String) (lf ff : Option String)
        (lv : Option (List (String × Value))),
      lf = none ∨ ff = none →
        b.lookup from_ as_ lf ff lv none = .error (.invalidLookup lookupRequiredMsg)) ∧
    (∀ (b : AggBuilder) (s : StageOrRaw) (e : AggError),
      b.add s = .error e → e.isInvalidLookup = false) ∧
    (∀ (i : Nat) (stages : List Value) (e : AggError),
      validateStagesFrom i stages = .error e → e.isInvalidLookup = false) ∧
    (∀ (n : Int) (e : AggError), LimitStage.make n = .error e → e.isInvalidLookup = false) ∧
    (∀ (n : Int) (e : AggError), SkipStage.make n = .error e → e.isInvalidLookup = false) ∧
    (∀ (b : AggBuilder) (e : AggError), b.to_json ≠ .error e) := by
  refine ⟨?_, ?_, ?_, ?_, ?_, ?_⟩
  · intro b from_ as_ lf ff lv hmiss
    rcases hmiss with rfl | rfl
    · rfl
    · cases lf <;> rfl
  · exact add_err_class
  · intro i stages e h
    exact validateStagesFrom_err_class stages i e h
  · intro n e h
    unfold LimitStage.make at h
    split at h
    · cases h; rfl
    · exact Except.noConfusion h
  · intro n e h
    unfold SkipStage.make at h
    split at h
    · cases h; rfl
    · exact Except.noConfusion h
  · intro b e h
    exact Except.noConfusion h

/-- C6 witness: the conjuncts applied at concrete inputs — a join() call
missing its local field errors at call time, and the errors that append,
the validator and stage construction produce at concrete bad inputs are not
the join-configuration category. -/
theorem c6_invalid_lookup_only_at_call_time_witness :
    (AggBuilder.empty).lookup "orders" "orders" none (some "userId") none none =
      .error (.invalidLookup lookupRequiredMsg) ∧
    AggError.isInvalidLookup (.invalidStage "Stage must be a dictionary") = false ∧
    AggError.isInvalidLookup (.invalidStage "Stage 0 must be a dictionary") = false ∧
    AggError.isInvalidLookup
      (.constructionFailure "ensure this value is greater than or equal to 0") = false :=
  ⟨c6_invalid_lookup_only_at_call_time.1 AggBuilder.empty "orders" "orders" none
      (some "userId") none (Or.inl rfl),
   c6_invalid_lookup_only_at_call_time.2.1 AggBuilder.empty (.raw (Value.int 3)) _ rfl,
   c6_invalid_lookup_only_at_call_time.2.2.1 0 [Value.int 3] _ rfl,
   c6_invalid_lookup_only_at_call_time.2.2.2.1 (-1) _ (by rw [LimitStage.make, if_pos (by decide : (-1 : Int) < 0)])⟩

/-- C7: constructing a Limit or Skip stage with a negative payload fails at
construction time with pydantic's construction error, and the limit()/skip()
builder methods therefore fail before anything is appended. -/
theorem c7_negative_limit_skip_construction_fails (n : Int) (h : n < 0) :
    LimitStage.make n =
      .error (.constructionFailure "ensure this value is greater than or equal to 0") ∧
    SkipStage.make n =
      .error (.constructionFailure "ensure this value is greater than or equal to 0") ∧
    (∀ b : AggBuilder, b.limit n =
      .error (.constructionFailure "ensure this value is greater than or equal to 0")) ∧
    (∀ b : AggBuilder, b.skip n =
      .error (.constructionFailure "ensure this value is greater than or equal to 0")) := by
  have hl : LimitStage.make n =
      .error (.constructionFailure "ensure this value is greater than or equal to 0") := by
    unfold LimitStage.make
    rw [if_pos h]
  have hs : SkipStage.make n =
      .error (.constructionFailure "ensure this value is greater than or equal to 0") := by
    unfold SkipStage.make
    rw [if_pos h]
  refine ⟨hl, hs, ?_, ?_⟩
  · intro b
    unfold AggBuilder.limit
    rw [hl]
  · intro b
    unfold AggBuilder.skip
    rw [hs]

/-- C7 witness: the construction-failure theorem applied at -1. -/
theorem c7_negative_limit_skip_construction_fails_witness :
    LimitStage.make (-1) =
      .error (.constructionFailure "ensure this value is greater than or equal to 0") ∧
    (AggBuilder.empty).limit (-1) =
      .error (.constructionFailure "ensure this value is greater than or equal to 0") ∧
    (AggBuilder.empty).skip (-1) =
      .error (.constructionFailure "ensure this value is greater than or equal to 0") :=
  ⟨(c7_negative_limit_skip_construction_fails (-1) (by decide)).1,
   (c7_negative_limit_skip_construction_fails (-1) (by decide)).2.2.1 AggBuilder.empty,
   (c7_negative_limit_skip_construction_fails (-1) (by decide)).2.2.2 AggBuilder.empty⟩

/-- C8: every typed Flatten (unwind) stage serializes to the expanded object
form with the path and the preserve flag (never the bare-string short
form), the unwind() method appends exactly that form, and the concrete
scenario flatten("$tags") then finalize() yields the expanded stage with the
flag defaulted to true. -/
theorem c8_unwind_expanded_form (b : AggBuilder) (path : String) (flag : Bool) :
    (UnwindStage.mk path flag).to_mongo =
      Value.dict [("$unwind", Value.dict
        [("path", Value.str path), ("preserveNullAndEmptyArrays", Value.bool flag)])] ∧
    b.unwind path flag = .ok ⟨⟨b.pipeline.stages ++
      [Value.dict [("$unwind", Value.dict
        [("path", Value.str path), ("preserveNullAndEmptyArrays", Value.bool flag)])]]⟩⟩ ∧
    ((AggBuilder.empty).unwind "$tags" true >>= AggBuilder.build) =
      .ok [Value.dict [("$unwind", Value.dict
        [("path", Value.str "$tags"), ("preserveNullAndEmptyArrays", Value.bool true)])]] :=
  ⟨rfl, rfl, rfl⟩

/-- C9: a foreign-key-mode join built through the typed path (pipeline
absent, both fields given and non-empty) produces a wire payload with
exactly the keys from, as, localField and foreignField — a caller-supplied
bound-variable mapping is silently omitted. -/
theorem c9_foreign_key_lookup_omits_let (b : AggBuilder) (from_ as_ lf ff : String)
    (lv : List (String × Value)) (hlf : lf ≠ "") (hff : ff ≠ "") :
    b.lookup from_ as_ (some lf) (some ff) (some lv) none =
      .ok ⟨⟨b.pipeline.stages ++ [Value.dict [("$lookup", Value.dict
        [("from", Value.str from_), ("as", Value.str as_),
         ("localField", Value.str lf), ("foreignField", Value.str ff)])]]⟩⟩ := by
  have hbeq : (lf == "" || ff == "") = false := by
    simp [hlf, hff]
  show (if (lf == "" || ff == "") = true then
      Except.error (AggError.invalidLookup lookupRequiredMsg)
    else b.add (.typed (.lookupS ⟨from_, as_, some lf, some ff, some lv, none⟩))) = _
  rw [hbeq]
  rfl

/-- C9 witness: the omitted-let theorem applied at a concrete foreign-key
join that supplies a bound-variable mapping. -/
theorem c9_foreign_key_lookup_omits_let_witness :
    (AggBuilder.empty).lookup "orders" "orders" (some "userId") (some "userId")
      (some [("uid", Value.str "$_id")]) none =
      .ok ⟨⟨[Value.dict [("$lookup", Value.dict
        [("from", Value.str "orders"), ("as", Value.str "orders"),
         ("localField", Value.str "userId"), ("foreignField", Value.str "userId")])]]⟩⟩ :=
  c9_foreign_key_lookup_omits_let AggBuilder.empty "orders" "orders" "userId" "userId"
    [("uid", Value.str "$_id")] (by decide) (by decide)

/-- C10: in non-pipeline mode, an empty string supplied for local-field or
foreign-field raises the join-configuration error exactly as the absent
argument does (Python falsiness treats the empty string like None), with
the same error value. -/
theorem c10_empty_string_fields_rejected (b : AggBuilder) (from_ as_ : String)
    (lv : Option (List (String × Value))) :
    (∀ ff : Option String, b.lookup from_ as_ (some "") ff lv none =
        .error (.invalidLookup lookupRequiredMsg)) ∧
    (∀ lf : Option String, b.lookup from_ as_ lf (some "") lv none =
        .error (.invalidLookup lookupRequiredMsg)) ∧
    b.lookup from_ as_ none none lv none = .error (.invalidLookup lookupRequiredMsg) := by
  refine ⟨?_, ?_, rfl⟩
  · intro ff
    cases ff <;> rfl
  · intro lf
    cases lf
    · rfl
    · unfold AggBuilder.lookup
      simp

end Mongoagg
